import Mathlib

/-!
Verification of the contact-book bot implemented in `agent.py`.

The program is embedded shallowly: Python strings become `List Char`,
the global `USERS` dict becomes an insertion-ordered association list,
handlers become pure functions returning an explicit record of the new
store, the lines printed, and either a returned value or a raised
exception, and the `input_error` decorator becomes a function from the
raw handler outcome to the final returned string.

Model notes:
* Python's `re` class `\s` and `str.strip()` match the Unicode
  whitespace characters; `isPySpace` enumerates that set.
* Python's `str.isdigit` also accepts non-ASCII decimal digits; the
  model restricts "digit" to the ASCII digits `0`-`9`, the reading on
  which the code's check and the specification's word "digits" agree.
* `str.capitalize`, `str.lower` and `str.upper` act on ASCII letters
  here (Lean's `Char.toUpper`/`Char.toLower`), matching their behaviour
  on the ASCII names the program manipulates.
-/

namespace ContactBot

/-- Python strings are modelled as lists of characters. -/
abbrev Str := List Char

/-- The character list of a Lean string literal (used to transcribe the
Python string literals of the source). -/
def str (s : String) : Str := s.toList

/-- The Unicode whitespace characters: exactly the characters matched by
Python's regex class `\s` (equivalently, those on which `str.isspace`
holds, the set stripped by `str.strip()` and split on by `str.split()`). -/
def isPySpace (c : Char) : Bool :=
  let n := c.toNat
  (9 ≤ n && n ≤ 13) || (28 ≤ n && n ≤ 31) || n = 32 || n = 0x85 || n = 0xa0 ||
    n = 0x1680 || (0x2000 ≤ n && n ≤ 0x200a) || n = 0x2028 || n = 0x2029 ||
    n = 0x202f || n = 0x205f || n = 0x3000

/-- Python `str.lower()` (ASCII letters). -/
def pyLower (s : Str) : Str := s.map Char.toLower

/-- Python `str.strip()`: remove leading and trailing whitespace. -/
def pyStrip (s : Str) : Str :=
  ((s.dropWhile isPySpace).reverse.dropWhile isPySpace).reverse

/-- Python `str.split()` with no argument: the maximal non-empty runs of
non-whitespace characters. -/
def pySplit (s : Str) : List Str :=
  (List.splitOnP isPySpace s).filter (fun t => t ≠ [])

/-- Python `str.capitalize()`: first character uppercased, the rest
lowercased. -/
def pyCapitalize : Str → Str
  | [] => []
  | c :: rest => c.toUpper :: rest.map Char.toLower

/-- Python `str.isdigit()`: non-empty and all characters digits. -/
def pyIsdigit (s : Str) : Bool := !s.isEmpty && s.all Char.isDigit

/-- Function `parse_input` from `agent.py`: split the raw line on whitespace; an
empty token list yields the empty command and no arguments, otherwise
the first token, stripped and lowercased, is the command and the rest
are the arguments. -/
def parse_input (user_input : Str) : Str × List Str :=
  match pySplit user_input with
  | [] => ([], [])
  | cmd :: args => (pyLower (pyStrip cmd), args)

/-- Constant `IDENT` from `agent.py`. -/
def IDENT : Str := str " "

/-- Constant `BOT_COLOR` from `agent.py` (`colorama.Fore.YELLOW`). -/
def BOT_COLOR : Str := str "\x1b[33m"

/-- Constant `BOT_ERROR_COLOR` from `agent.py` (`colorama.Fore.RED`). -/
def BOT_ERROR_COLOR : Str := str "\x1b[31m"

/-- Constant `HELP_MAIN_TEXT` from `agent.py` (`colorama.Fore.LIGHTGREEN_EX`). -/
def HELP_MAIN_TEXT : Str := str "\x1b[92m"

/-- Constant `colorama.Style.RESET_ALL`. -/
def STYLE_RESET : Str := str "\x1b[0m"

/-- Constant `ERR_NAME_AND_PHONE` from `agent.py`. -/
def ERR_NAME_AND_PHONE : Str := str "Give me name and phone please."

/-- The in-memory store (the global `USERS` dict): an insertion-ordered
association list from normalized username to phone, as a Python dict. -/
abbrev Store := List (Str × Str)

/-- Python dict read access: the value at the first (unique) matching key. -/
def dictGet : List (Str × Str) → Str → Option Str
  | [], _ => none
  | (k, v) :: rest, key => if k = key then some v else dictGet rest key

/-- Python dict assignment `d[k] = v`: overwrite in place if the key is
present, otherwise append. -/
def dictSet : List (Str × Str) → Str → Str → List (Str × Str)
  | [], k, v => [(k, v)]
  | (k', v') :: rest, k, v =>
      if k' = k then (k, v) :: rest else (k', v') :: dictSet rest k v

/-- Dict `COMMANDS_HELP_INFO` from `agent.py`. -/
def COMMANDS_HELP_INFO : List (Str × Str) :=
  [ (str "hello",
      HELP_MAIN_TEXT ++ BOT_COLOR ++ str "\x27hello\x27 " ++ HELP_MAIN_TEXT ++
        str "just to get nice greeting :)" ++ STYLE_RESET),
    (str "add",
      HELP_MAIN_TEXT ++ BOT_COLOR ++ str "\x27add <username> <phone number>\x27 " ++
        HELP_MAIN_TEXT ++ str "to add user with it\x27s phone.\x27" ++ STYLE_RESET),
    (str "change",
      HELP_MAIN_TEXT ++ BOT_COLOR ++ str "\x27change <username> <phone number>\x27 " ++
        HELP_MAIN_TEXT ++ str "to update username\x27s phone.\x27" ++ STYLE_RESET),
    (str "phone",
      HELP_MAIN_TEXT ++ BOT_COLOR ++ str "\x27phone <username>\x27 " ++
        HELP_MAIN_TEXT ++ str "to get phone of the user." ++ STYLE_RESET),
    (str "all",
      HELP_MAIN_TEXT ++ BOT_COLOR ++ str "\x27all\x27 " ++ HELP_MAIN_TEXT ++
        str "to get get list of all users and their phones" ++ STYLE_RESET),
    (str "exit or close",
      HELP_MAIN_TEXT ++ BOT_COLOR ++ str "\x27close\x27 or \x27exit\x27 " ++
        HELP_MAIN_TEXT ++ str " to stop the assistant." ++ STYLE_RESET) ]

/-- Dict `FUNC_COMMAND_MAP` from `agent.py`: handler function name to command. -/
def FUNC_COMMAND_MAP : List (Str × Str) :=
  [ (str "add_contact", str "add"),
    (str "update_contact", str "change"),
    (str "get_users_phone", str "phone") ]

/-- The line produced by `print_error`. -/
def print_error_line (message : Str) : Str :=
  IDENT ++ BOT_ERROR_COLOR ++ message ++ STYLE_RESET

/-- The line produced by `print_success`. -/
def print_success_line (message : Str) : Str :=
  IDENT ++ BOT_COLOR ++ message ++ STYLE_RESET

/-- The three exception kinds raised by the handlers, each carrying its
`args[0]` message. -/
inductive HandlerError where
  | valueError (msg : Str)
  | keyError (msg : Str)
  | indexError (msg : Str)
deriving DecidableEq, Repr

/-- The `args[0]` message of a handler exception. -/
def HandlerError.msg : HandlerError → Str
  | .valueError m => m
  | .keyError m => m
  | .indexError m => m

/-- Whether the exception is an `IndexError`. -/
def HandlerError.isIndexError : HandlerError → Bool
  | .indexError _ => true
  | _ => false

/-- The message of the `ValueError` raised by `validate_phone`. -/
def phoneErrorMsg (phone : Str) : Str :=
  str "Phone \x27" ++ phone ++
    str "\x27 is not matching valid format. Should be digits only, 10 to 15 length."

/-- The stripping step of `validate_phone`:
`re.sub(r"[\s\-\(\)\+\.]", "", phone)` removes every whitespace
character, hyphen, parenthesis, plus and period. -/
def strip_format_chars (phone : Str) : Str :=
  phone.filter fun c =>
    !(isPySpace c || c = '-' || c = '(' || c = ')' || c = '+' || c = '.')

/-- Function `validate_phone` from `agent.py`: the cleaned string must be all
digits with length between 10 and 15, else a `ValueError` whose message
embeds the original phone string is raised. -/
def validate_phone (phone : Str) : Except HandlerError Unit :=
  let cleaned := strip_format_chars phone
  if pyIsdigit cleaned && decide (10 ≤ cleaned.length) && decide (cleaned.length ≤ 15) then
    .ok ()
  else
    .error (.valueError (phoneErrorMsg phone))

instance instDecEqExcept {ε α : Type} [DecidableEq ε] [DecidableEq α] :
    DecidableEq (Except ε α) := fun x y =>
  match x, y with
  | .ok a, .ok b => if h : a = b then .isTrue (by rw [h]) else .isFalse (by simp [h])
  | .error a, .error b => if h : a = b then .isTrue (by rw [h]) else .isFalse (by simp [h])
  | .ok _, .error _ => .isFalse (by simp)
  | .error _, .ok _ => .isFalse (by simp)

/-- The outcome of a raw (undecorated) handler body: the store after the
call, the lines it printed, and either its return value or the exception
it raised. -/
structure RawOut where
  store : Store
  printed : List Str
  result : Except HandlerError (Option Str)
deriving DecidableEq, Repr

/-- The outcome of a decorated handler: the `input_error` wrapper never
lets an exception escape, so the result is always a (possibly absent)
returned string. -/
structure HandlerOut where
  store : Store
  printed : List Str
  returned : Option Str
deriving DecidableEq, Repr

/-- The warning printed by `add_contact` when the username exists. -/
def alreadyExistsMsg (username existing : Str) : Str :=
  str "User \x27" ++ username ++ str "\x27 already exists with phone " ++ existing ++
    str ". Use \x27change " ++ username ++
    str " <new_phone>\x27 to update, or use a different username."

/-- The message of the `KeyError` raised on a missing username. -/
def notFoundMsg (username : Str) : Str :=
  str "User \x27" ++ username ++ str "\x27 doesn\x27t exist."

/-- The body of `add_contact` from `agent.py`, before the `input_error`
decorator: arity check, capitalize the name, validate the phone, warn
without mutating if the username exists, otherwise insert. -/
def add_contact_raw (store : Store) (args : List Str) : RawOut :=
  match args with
  | [name, phone] =>
    let username := pyCapitalize name
    match validate_phone phone with
    | .error e => ⟨store, [], .error e⟩
    | .ok _ =>
      match dictGet store username with
      | some existing =>
          ⟨store, [print_error_line (alreadyExistsMsg username existing)], .ok none⟩
      | none =>
          ⟨dictSet store username phone, [],
            .ok (some (IDENT ++ BOT_COLOR ++ str "Contact added." ++ STYLE_RESET))⟩
  | _ => ⟨store, [], .error (.valueError ERR_NAME_AND_PHONE)⟩

/-- The body of `update_contact` from `agent.py`, before the decorator:
arity check, capitalize, validate the phone, raise `KeyError` if the
username is absent, otherwise overwrite. -/
def update_contact_raw (store : Store) (args : List Str) : RawOut :=
  match args with
  | [name, phone] =>
    let username := pyCapitalize name
    match validate_phone phone with
    | .error e => ⟨store, [], .error e⟩
    | .ok _ =>
      match dictGet store username with
      | none => ⟨store, [], .error (.keyError (notFoundMsg username))⟩
      | some _ =>
          ⟨dictSet store username phone, [],
            .ok (some (IDENT ++ BOT_COLOR ++ str "Contact updated." ++ STYLE_RESET))⟩
  | _ => ⟨store, [], .error (.valueError ERR_NAME_AND_PHONE)⟩

/-- The body of `get_users_phone` from `agent.py`, before the decorator:
raise `IndexError` on no arguments, capitalize `args[0]`, raise
`KeyError` if absent, otherwise format the phone message. -/
def get_users_phone_raw (store : Store) (args : List Str) : RawOut :=
  match args with
  | [] => ⟨store, [], .error (.indexError (str "Enter user name."))⟩
  | name :: _ =>
    let username := pyCapitalize name
    match dictGet store username with
    | none => ⟨store, [], .error (.keyError (notFoundMsg username))⟩
    | some p =>
        ⟨store, [],
          .ok (some (IDENT ++ BOT_COLOR ++ username ++ str "\x27s phone is " ++ p ++
            STYLE_RESET))⟩

/-- The `input_error` decorator from `agent.py`: a raised exception
becomes a returned string in the error colour; when the failing handler
has an entry in `FUNC_COMMAND_MAP` and the failure is a usage error (an
`IndexError`, or a message equal to `ERR_NAME_AND_PHONE`) the command
format hint from `COMMANDS_HELP_INFO` is appended. `FUNC_COMMAND_MAP`
values are always keys of `COMMANDS_HELP_INFO`, so the dict access that
`getD` models cannot fail. -/
def input_error (funcName : Str) (r : RawOut) : HandlerOut :=
  match r.result with
  | .ok v => ⟨r.store, r.printed, v⟩
  | .error e =>
    let hint : Str :=
      match dictGet FUNC_COMMAND_MAP funcName with
      | some cmdKey =>
          if e.isIndexError = true ∨ e.msg = ERR_NAME_AND_PHONE then
            str "\n" ++ (dictGet COMMANDS_HELP_INFO cmdKey).getD []
          else []
      | none => []
    ⟨r.store, r.printed, some (IDENT ++ BOT_ERROR_COLOR ++ e.msg ++ STYLE_RESET ++ hint)⟩

/-- The decorated `add_contact`. -/
def add_contact (store : Store) (args : List Str) : HandlerOut :=
  input_error (str "add_contact") (add_contact_raw store args)

/-- The decorated `update_contact`. -/
def update_contact (store : Store) (args : List Str) : HandlerOut :=
  input_error (str "update_contact") (update_contact_raw store args)

/-- The decorated `get_users_phone`. -/
def get_users_phone (store : Store) (args : List Str) : HandlerOut :=
  input_error (str "get_users_phone") (get_users_phone_raw store args)

/-- Modelled from the spec: the `tabulate` library used by
`print_dict_as_list` is external to the repository and the spec places
table rendering out of scope, so the table is modelled as a flat
serialization of the headers and rows. -/
def tabulate_rounded (d : List (Str × Str)) (headers : List Str) : Str :=
  (headers ++ d.map fun kv => kv.1 ++ kv.2).foldl (· ++ ·) []

/-- Function `print_dict_as_list` from `agent.py`: an error line for an empty
dict, otherwise the rendered table. -/
def print_dict_as_list (d : List (Str × Str)) (headers : List Str) : List Str :=
  if d.isEmpty then [print_error_line (str "There is no records yet.")]
  else [tabulate_rounded d headers]

/-- Whether one loop iteration terminates the program. -/
inductive StepOutcome where
  | terminated
  | continued
deriving DecidableEq, Repr

/-- The observable effect of one main-loop iteration: the store after
it, every line printed during it, and whether the loop exits. -/
structure LoopStep where
  store : Store
  printed : List Str
  outcome : StepOutcome
deriving DecidableEq, Repr

/-- The main loop's printing of a handler result: `if result:` prints
the returned string exactly when it is present and non-empty (Python
truthiness of `None` and of the empty string). -/
def emit (r : HandlerOut) : LoopStep :=
  ⟨r.store, r.printed ++ (match r.returned with
    | some m => if m.isEmpty then [] else [m]
    | none => []), .continued⟩

/-- The dispatch of one already-parsed command through the `commands`
dict of `main`, including the fallback branches for an unrecognized
non-empty command and for an empty line. `close`/`exit` are handled
before this dispatch, in `loop_step`. -/
def run_command (command : Str) (store : Store) (args : List Str) : LoopStep :=
  if command = str "hello" then
    ⟨store, [print_success_line (str "How can I help you?")], .continued⟩
  else if command = str "add" then emit (add_contact store args)
  else if command = str "change" then emit (update_contact store args)
  else if command = str "phone" then emit (get_users_phone store args)
  else if command = str "all" then
    ⟨store, print_dict_as_list store [str "User", str "Phone"], .continued⟩
  else if command = str "help" then
    ⟨store, print_dict_as_list COMMANDS_HELP_INFO [str "Command", str "Usage"], .continued⟩
  else if command ≠ [] then
    ⟨store,
      print_error_line (str "Invalid command. Please use one of the list below:") ::
        print_dict_as_list COMMANDS_HELP_INFO [str "Command", str "Usage"], .continued⟩
  else ⟨store, [], .continued⟩

/-- One iteration of the `while True` loop of `main`: read a line, strip
it, parse it, exit on `close`/`exit`, otherwise dispatch. -/
def loop_step (store : Store) (rawLine : Str) : LoopStep :=
  if (parse_input (pyStrip rawLine)).1 = str "close" ∨
      (parse_input (pyStrip rawLine)).1 = str "exit" then
    ⟨store, [BOT_COLOR ++ str "Good bye!" ++ STYLE_RESET], .terminated⟩
  else
    run_command (parse_input (pyStrip rawLine)).1 store (parse_input (pyStrip rawLine)).2

/-- The store states reachable from process start: `USERS` is created
empty, and every subsequent state is produced by a loop iteration. -/
inductive Reachable : Store → Prop where
  | init : Reachable []
  | step (line : Str) {s : Store} : Reachable s → Reachable (loop_step s line).store

/-- Every phone stored in the store passes `validate_phone`. -/
def StoreValid (s : Store) : Prop :=
  ∀ k p, dictGet s k = some p → validate_phone p = .ok ()

/-! Helper lemmas. -/

theorem char_toNat_ofNat {n : Nat} (h : n.isValidChar) : (Char.ofNat n).toNat = n := by
  rw [Char.ofNat, dif_pos h]
  rfl

theorem char_toUpper_eq (c : Char) :
    c.toUpper = if c.toNat ≥ 97 ∧ c.toNat ≤ 122 then Char.ofNat (c.toNat - 32) else c := rfl

theorem char_toLower_eq (c : Char) :
    c.toLower = if c.toNat ≥ 65 ∧ c.toNat ≤ 90 then Char.ofNat (c.toNat + 32) else c := rfl

theorem char_toUpper_idem (c : Char) : c.toUpper.toUpper = c.toUpper := by
  rw [char_toUpper_eq c]
  split
  · rename_i h
    have hv : (c.toNat - 32).isValidChar := by
      unfold Nat.isValidChar
      left
      omega
    rw [char_toUpper_eq, char_toNat_ofNat hv, if_neg (by omega)]
  · rename_i h
    rw [char_toUpper_eq, if_neg h]

theorem char_toLower_idem (c : Char) : c.toLower.toLower = c.toLower := by
  rw [char_toLower_eq c]
  split
  · rename_i h
    have hv : (c.toNat + 32).isValidChar := by
      unfold Nat.isValidChar
      left
      have : c.toNat ≤ 90 := h.2
      omega
    rw [char_toLower_eq, char_toNat_ofNat hv, if_neg (by omega)]
  · rename_i h
    rw [char_toLower_eq, if_neg h]

theorem dictGet_dictSet (st : Store) (k v k2 : Str) :
    dictGet (dictSet st k v) k2 = if k = k2 then some v else dictGet st k2 := by
  induction st with
  | nil =>
    by_cases h : k = k2 <;> simp [dictGet, dictSet, h]
  | cons hd tl ih =>
    obtain ⟨k', v'⟩ := hd
    by_cases hk : k' = k
    · subst hk
      by_cases h2 : k' = k2 <;> simp [dictSet, dictGet, h2]
    · by_cases h2 : k' = k2
      · subst h2
        have hne : ¬k = k' := fun h => hk h.symm
        simp [dictSet, dictGet, hk, hne]
      · simp [dictSet, dictGet, hk, h2, ih]

theorem validate_phone_eq (phone : Str) :
    validate_phone phone =
      if (pyIsdigit (strip_format_chars phone) &&
          decide (10 ≤ (strip_format_chars phone).length) &&
          decide ((strip_format_chars phone).length ≤ 15)) = true then
        .ok ()
      else .error (.valueError (phoneErrorMsg phone)) := rfl

theorem validate_phone_error_eq {phone : Str} {e : HandlerError}
    (h : validate_phone phone = .error e) : e = .valueError (phoneErrorMsg phone) := by
  rw [validate_phone_eq] at h
  split at h
  · simp at h
  · simp at h
    exact h.symm

theorem phoneErrorMsg_ne (phone : Str) : phoneErrorMsg phone ≠ ERR_NAME_AND_PHONE := by
  intro h
  have h1 : (phoneErrorMsg phone).head? = some 'P' := rfl
  have h2 : ERR_NAME_AND_PHONE.head? = some 'G' := rfl
  rw [h, h2] at h1
  simp at h1

theorem notFoundMsg_ne (u : Str) : notFoundMsg u ≠ ERR_NAME_AND_PHONE := by
  intro h
  have h1 : (notFoundMsg u).head? = some 'U' := rfl
  have h2 : ERR_NAME_AND_PHONE.head? = some 'G' := rfl
  rw [h, h2] at h1
  simp at h1

theorem input_error_ok (funcName : Str) (st : Store) (pr : List Str) (v : Option Str) :
    input_error funcName ⟨st, pr, .ok v⟩ = ⟨st, pr, v⟩ := rfl

theorem input_error_keyError (funcName : Str) (st : Store) (pr : List Str) (m : Str)
    (hm : m ≠ ERR_NAME_AND_PHONE) :
    input_error funcName ⟨st, pr, .error (.keyError m)⟩ =
      ⟨st, pr, some (IDENT ++ BOT_ERROR_COLOR ++ m ++ STYLE_RESET)⟩ := by
  unfold input_error
  cases hc : dictGet FUNC_COMMAND_MAP funcName <;>
    simp [HandlerError.isIndexError, HandlerError.msg, hm, hc]

theorem input_error_valueError (funcName : Str) (st : Store) (pr : List Str) (m : Str)
    (hm : m ≠ ERR_NAME_AND_PHONE) :
    input_error funcName ⟨st, pr, .error (.valueError m)⟩ =
      ⟨st, pr, some (IDENT ++ BOT_ERROR_COLOR ++ m ++ STYLE_RESET)⟩ := by
  unfold input_error
  cases hc : dictGet FUNC_COMMAND_MAP funcName <;>
    simp [HandlerError.isIndexError, HandlerError.msg, hm, hc]

theorem input_error_arity (funcName cmdKey : Str) (st : Store) (pr : List Str)
    (hf : dictGet FUNC_COMMAND_MAP funcName = some cmdKey) :
    input_error funcName ⟨st, pr, .error (.valueError ERR_NAME_AND_PHONE)⟩ =
      ⟨st, pr, some (IDENT ++ BOT_ERROR_COLOR ++ ERR_NAME_AND_PHONE ++ STYLE_RESET ++
        (str "\n" ++ (dictGet COMMANDS_HELP_INFO cmdKey).getD []))⟩ := by
  unfold input_error
  simp [HandlerError.isIndexError, HandlerError.msg, hf]

theorem input_error_indexError (funcName cmdKey : Str) (st : Store) (pr : List Str) (m : Str)
    (hf : dictGet FUNC_COMMAND_MAP funcName = some cmdKey) :
    input_error funcName ⟨st, pr, .error (.indexError m)⟩ =
      ⟨st, pr, some (IDENT ++ BOT_ERROR_COLOR ++ m ++ STYLE_RESET ++
        (str "\n" ++ (dictGet COMMANDS_HELP_INFO cmdKey).getD []))⟩ := by
  unfold input_error
  simp [HandlerError.isIndexError, HandlerError.msg, hf]

theorem add_contact_raw_arity (store : Store) (args : List Str) (h : args.length ≠ 2) :
    add_contact_raw store args = ⟨store, [], .error (.valueError ERR_NAME_AND_PHONE)⟩ := by
  match args with
  | [] => rfl
  | [_] => rfl
  | [_, _] => exact absurd rfl h
  | _ :: _ :: _ :: _ => rfl

theorem update_contact_raw_arity (store : Store) (args : List Str) (h : args.length ≠ 2) :
    update_contact_raw store args = ⟨store, [], .error (.valueError ERR_NAME_AND_PHONE)⟩ := by
  match args with
  | [] => rfl
  | [_] => rfl
  | [_, _] => exact absurd rfl h
  | _ :: _ :: _ :: _ => rfl

theorem add_contact_store_cases (store : Store) (args : List Str) :
    (add_contact store args).store = store ∨
    ∃ name phone, args = [name, phone] ∧ validate_phone phone = .ok () ∧
      dictGet store (pyCapitalize name) = none ∧
      (add_contact store args).store = dictSet store (pyCapitalize name) phone := by
  match args with
  | [name, phone] =>
    cases hv : validate_phone phone with
    | error e =>
      exact .inl (by simp [add_contact, add_contact_raw, input_error, hv])
    | ok u =>
      cases u
      cases hex : dictGet store (pyCapitalize name) with
      | some existing =>
        exact .inl (by simp [add_contact, add_contact_raw, input_error, hv, hex])
      | none =>
        exact .inr ⟨name, phone, rfl, hv, hex,
          by simp [add_contact, add_contact_raw, input_error, hv, hex]⟩
  | [] => exact .inl rfl
  | [_] => exact .inl rfl
  | _ :: _ :: _ :: _ => exact .inl rfl

theorem update_contact_store_cases (store : Store) (args : List Str) :
    (update_contact store args).store = store ∨
    ∃ name phone, args = [name, phone] ∧ validate_phone phone = .ok () ∧
      (update_contact store args).store = dictSet store (pyCapitalize name) phone := by
  match args with
  | [name, phone] =>
    cases hv : validate_phone phone with
    | error e =>
      exact .inl (by simp [update_contact, update_contact_raw, input_error, hv])
    | ok u =>
      cases u
      cases hex : dictGet store (pyCapitalize name) with
      | none =>
        refine .inl ?_
        have := notFoundMsg_ne (pyCapitalize name)
        simp [update_contact, update_contact_raw, input_error, hv, hex,
          HandlerError.isIndexError, HandlerError.msg, this]
      | some existing =>
        exact .inr ⟨name, phone, rfl, hv,
          by simp [update_contact, update_contact_raw, input_error, hv, hex]⟩
  | [] => exact .inl rfl
  | [_] => exact .inl rfl
  | _ :: _ :: _ :: _ => exact .inl rfl

theorem get_users_phone_store (store : Store) (args : List Str) :
    (get_users_phone store args).store = store := by
  match args with
  | [] => rfl
  | name :: rest =>
    cases hex : dictGet store (pyCapitalize name) with
    | none =>
      have := notFoundMsg_ne (pyCapitalize name)
      simp [get_users_phone, get_users_phone_raw, input_error, hex,
        HandlerError.isIndexError, HandlerError.msg, this]
    | some p =>
      simp [get_users_phone, get_users_phone_raw, input_error, hex]

theorem emit_store (r : HandlerOut) : (emit r).store = r.store := rfl

theorem run_command_store_cases (command : Str) (store : Store) (args : List Str) :
    (run_command command store args).store = (add_contact store args).store ∨
    (run_command command store args).store = (update_contact store args).store ∨
    (run_command command store args).store = store := by
  unfold run_command
  repeat' split
  · exact .inr (.inr rfl)
  · exact .inl (emit_store _)
  · exact .inr (.inl (emit_store _))
  · exact .inr (.inr ((emit_store _).trans (get_users_phone_store store args)))
  · exact .inr (.inr rfl)
  · exact .inr (.inr rfl)
  · exact .inr (.inr rfl)
  · exact .inr (.inr rfl)

theorem loop_step_store_cases (store : Store) (line : Str) :
    (loop_step store line).store = store ∨
    ∃ name phone, validate_phone phone = .ok () ∧
      (loop_step store line).store = dictSet store (pyCapitalize name) phone := by
  unfold loop_step
  split
  · exact .inl rfl
  · rcases run_command_store_cases (parse_input (pyStrip line)).1 store
      (parse_input (pyStrip line)).2 with hc | hc | hc
    · rcases add_contact_store_cases store (parse_input (pyStrip line)).2 with
        ha | ⟨name, phone, _, hv, _, ha⟩
      · exact .inl (hc.trans ha)
      · exact .inr ⟨name, phone, hv, hc.trans ha⟩
    · rcases update_contact_store_cases store (parse_input (pyStrip line)).2 with
        ha | ⟨name, phone, _, hv, ha⟩
      · exact .inl (hc.trans ha)
      · exact .inr ⟨name, phone, hv, hc.trans ha⟩
    · exact .inl hc

/-! Claim C1. -/

/-- Formalisation of the specification's words for the phone contract:
strip the characters space, hyphen, parenthesis, plus and period; the
remainder must consist only of digits and have length between 10 and 15
inclusive. -/
def spec_phone_ok (phone : Str) : Bool :=
  (phone.filter fun c =>
      !(c = ' ' || c = '-' || c = '(' || c = ')' || c = '+' || c = '.')).all Char.isDigit &&
  decide (10 ≤ (phone.filter fun c =>
      !(c = ' ' || c = '-' || c = '(' || c = ')' || c = '+' || c = '.')).length) &&
  decide ((phone.filter fun c =>
      !(c = ' ' || c = '-' || c = '(' || c = ')' || c = '+' || c = '.')).length ≤ 15)

/-- The amended phone contract: as `spec_phone_ok`, but stripping every
whitespace character (the regex class matches all of them, not only the
space) together with hyphen, parenthesis, plus and period. -/
def spec_phone_ok_ws (phone : Str) : Bool :=
  (strip_format_chars phone).all Char.isDigit &&
  decide (10 ≤ (strip_format_chars phone).length) &&
  decide ((strip_format_chars phone).length ≤ 15)

/-- C1 counterexample: the phone "123456789\t0" contains a tab, which
the claim's stripping set (space, hyphen, parenthesis, plus, period)
does not remove, so by the claim validation must fail; the code's regex
class strips every whitespace character, and validation succeeds. -/
theorem c1_counterexample :
    validate_phone (str "123456789\t0") = .ok () ∧
    spec_phone_ok (str "123456789\t0") = false := by decide

/-- C1 (amended): for every phone string, validation succeeds if and
only if the string, after stripping whitespace characters (not just the
space), hyphen, parenthesis, plus and period, consists only of digits
and has length between 10 and 15 inclusive; on failure the error
message embeds the original, unstripped phone string. -/
theorem c1_phone_validation (phone : Str) :
    (validate_phone phone = .ok () ↔ spec_phone_ok_ws phone = true) ∧
    (∀ e, validate_phone phone = .error e → ∃ pre suf, e.msg = pre ++ phone ++ suf) := by
  constructor
  · rw [validate_phone_eq]
    unfold spec_phone_ok_ws
    generalize strip_format_chars phone = s
    split
    · rename_i h
      simp only [Bool.and_eq_true, pyIsdigit] at h
      simp only [Bool.and_eq_true]
      exact ⟨fun _ => ⟨⟨h.1.1.2, h.1.2⟩, h.2⟩, fun _ => by trivial⟩
    · rename_i h
      constructor
      · intro hq
        exact absurd hq (by simp)
      · intro hq
        simp only [Bool.and_eq_true] at hq
        exfalso
        apply h
        simp only [Bool.and_eq_true, pyIsdigit]
        refine ⟨⟨⟨?_, hq.1.1⟩, hq.1.2⟩, hq.2⟩
        have hlen : 10 ≤ s.length := by simpa using hq.1.2
        cases s with
        | nil => simp at hlen
        | cons a t => rfl
  · intro e he
    rw [validate_phone_error_eq he]
    exact ⟨str "Phone \x27",
      str "\x27 is not matching valid format. Should be digits only, 10 to 15 length.",
      by simp [HandlerError.msg, phoneErrorMsg]⟩

/-- C1 witness: at the phone "123" validation fails and the error
message embeds "123". -/
theorem c1_phone_validation_witness :
    ∃ pre suf,
      (HandlerError.valueError (phoneErrorMsg (str "123"))).msg = pre ++ str "123" ++ suf :=
  (c1_phone_validation (str "123")).2 _ (by decide)

/-! Claim C2. -/

/-- C2: for every store and every username already present in it (after
capitalization), adding that username with any valid phone leaves the
store unchanged, raises and returns no error (the returned value is
`none`), and prints a warning that names the existing phone. -/
theorem c2_add_existing (store : Store) (name phone existing : Str)
    (hex : dictGet store (pyCapitalize name) = some existing)
    (hph : validate_phone phone = .ok ()) :
    add_contact store [name, phone] =
      ⟨store, [print_error_line (alreadyExistsMsg (pyCapitalize name) existing)], none⟩ ∧
    ∃ pre suf, alreadyExistsMsg (pyCapitalize name) existing = pre ++ existing ++ suf := by
  constructor
  · simp [add_contact, add_contact_raw, input_error, hph, hex]
  · exact ⟨str "User \x27" ++ pyCapitalize name ++ str "\x27 already exists with phone ",
      str ". Use \x27change " ++ pyCapitalize name ++
        str " <new_phone>\x27 to update, or use a different username.",
      by simp [alreadyExistsMsg]⟩

/-- C2 witness: adding "bob" to a store already holding "Bob" warns,
names the stored phone and mutates nothing. -/
theorem c2_add_existing_witness :
    add_contact [(str "Bob", str "0123456789")] [str "bob", str "1234567890"] =
      ⟨[(str "Bob", str "0123456789")],
        [print_error_line (alreadyExistsMsg (pyCapitalize (str "bob")) (str "0123456789"))],
        none⟩ ∧
    ∃ pre suf,
      alreadyExistsMsg (pyCapitalize (str "bob")) (str "0123456789") =
        pre ++ str "0123456789" ++ suf :=
  c2_add_existing _ _ _ _ (by decide) (by decide)

/-! Claim C3. -/

/-- C3 counterexample: the claim promises a not-found failure for every
phone, but with the absent username "bob" and the phone "123" the code
raises the phone-format `ValueError` before ever consulting the store,
not the not-found `KeyError`. -/
theorem c3_counterexample :
    dictGet ([] : Store) (pyCapitalize (str "bob")) = none ∧
    update_contact_raw [] [str "bob", str "123"] =
      ⟨[], [], .error (.valueError (phoneErrorMsg (str "123")))⟩ := by decide

/-- C3 (amended): for every store and username not present in it (after
capitalization), update leaves the store unchanged for every phone, and
when the phone passes validation it fails with the not-found condition
(the `KeyError` message, no usage hint). With an invalid phone it fails
with the validation error instead. -/
theorem c3_update_missing (store : Store) (name phone : Str)
    (habs : dictGet store (pyCapitalize name) = none) :
    (update_contact store [name, phone]).store = store ∧
    (validate_phone phone = .ok () →
      update_contact store [name, phone] =
        ⟨store, [],
          some (IDENT ++ BOT_ERROR_COLOR ++ notFoundMsg (pyCapitalize name) ++
            STYLE_RESET)⟩) := by
  constructor
  · cases hv : validate_phone phone with
    | error e => simp [update_contact, update_contact_raw, input_error, hv]
    | ok u =>
      cases u
      have h1 : update_contact_raw store [name, phone] =
          ⟨store, [], .error (.keyError (notFoundMsg (pyCapitalize name)))⟩ := by
        simp [update_contact_raw, hv, habs]
      rw [update_contact, h1,
        input_error_keyError _ _ _ _ (notFoundMsg_ne (pyCapitalize name))]
  · intro hph
    have h1 : update_contact_raw store [name, phone] =
        ⟨store, [], .error (.keyError (notFoundMsg (pyCapitalize name)))⟩ := by
      simp [update_contact_raw, hph, habs]
    rw [update_contact, h1,
      input_error_keyError _ _ _ _ (notFoundMsg_ne (pyCapitalize name))]

/-- C3 witness: updating "bob" with a valid phone in the empty store
fails with the not-found message and changes nothing. -/
theorem c3_update_missing_witness :
    (update_contact [] [str "bob", str "1234567890"]).store = [] ∧
    update_contact [] [str "bob", str "1234567890"] =
      ⟨[], [],
        some (IDENT ++ BOT_ERROR_COLOR ++ notFoundMsg (pyCapitalize (str "bob")) ++
          STYLE_RESET)⟩ :=
  ⟨(c3_update_missing [] (str "bob") (str "1234567890") (by decide)).1,
    (c3_update_missing [] (str "bob") (str "1234567890") (by decide)).2 (by decide)⟩

/-! Claim C4. -/

/-- C4: for every store not containing the (capitalized) username and
every valid phone, add succeeds and a subsequent lookup of the same
username succeeds and reports exactly the phone string that was added,
original punctuation included. -/
theorem c4_add_then_get (store : Store) (name phone : Str)
    (habs : dictGet store (pyCapitalize name) = none)
    (hph : validate_phone phone = .ok ()) :
    (add_contact store [name, phone]).returned =
      some (IDENT ++ BOT_COLOR ++ str "Contact added." ++ STYLE_RESET) ∧
    get_users_phone (add_contact store [name, phone]).store [name] =
      ⟨(add_contact store [name, phone]).store, [],
        some (IDENT ++ BOT_COLOR ++ pyCapitalize name ++ str "\x27s phone is " ++ phone ++
          STYLE_RESET)⟩ := by
  have hstore : (add_contact store [name, phone]).store =
      dictSet store (pyCapitalize name) phone := by
    simp [add_contact, add_contact_raw, input_error, hph, habs]
  constructor
  · simp [add_contact, add_contact_raw, input_error, hph, habs]
  · rw [hstore]
    have hget : dictGet (dictSet store (pyCapitalize name) phone) (pyCapitalize name) =
        some phone := by
      rw [dictGet_dictSet, if_pos rfl]
    simp [get_users_phone, get_users_phone_raw, input_error, hget]

/-- C4 witness: the spec's scenario, `add Alice 123-456-7890` then
`phone alice`. -/
theorem c4_add_then_get_witness :
    (add_contact [] [str "Alice", str "123-456-7890"]).returned =
      some (IDENT ++ BOT_COLOR ++ str "Contact added." ++ STYLE_RESET) ∧
    get_users_phone (add_contact [] [str "Alice", str "123-456-7890"]).store [str "alice"] =
      ⟨(add_contact [] [str "Alice", str "123-456-7890"]).store, [],
        some (IDENT ++ BOT_COLOR ++ pyCapitalize (str "Alice") ++ str "\x27s phone is " ++
          str "123-456-7890" ++ STYLE_RESET)⟩ := by
  have h := c4_add_then_get [] (str "Alice") (str "123-456-7890") (by decide) (by decide)
  refine ⟨h.1, ?_⟩
  have hcap : pyCapitalize (str "alice") = pyCapitalize (str "Alice") := by decide
  calc get_users_phone (add_contact [] [str "Alice", str "123-456-7890"]).store [str "alice"]
      = get_users_phone (add_contact [] [str "Alice", str "123-456-7890"]).store
          [str "Alice"] := by
        simp [get_users_phone, get_users_phone_raw, hcap]
    _ = _ := h.2

/-! Claim C5. -/

/-- C5: every handler failure is returned (not raised) by the
`input_error` wrapper, formatted with the bot's error styling
(`IDENT ++ BOT_ERROR_COLOR ++ message ++ STYLE_RESET`); the usage hint
from the static help table is appended exactly for the usage errors —
wrong argument count in add/change, missing username in phone — and not
for the not-found failures; already-exists is not a failure at all: add
returns nothing and prints the warning directly. -/
theorem c5_error_wrapping (store : Store) (args : List Str) (name phone : Str) :
    (args.length ≠ 2 →
      add_contact store args =
        ⟨store, [], some (IDENT ++ BOT_ERROR_COLOR ++ ERR_NAME_AND_PHONE ++ STYLE_RESET ++
          (str "\n" ++ (dictGet COMMANDS_HELP_INFO (str "add")).getD []))⟩ ∧
      update_contact store args =
        ⟨store, [], some (IDENT ++ BOT_ERROR_COLOR ++ ERR_NAME_AND_PHONE ++ STYLE_RESET ++
          (str "\n" ++ (dictGet COMMANDS_HELP_INFO (str "change")).getD []))⟩) ∧
    (get_users_phone store [] =
      ⟨store, [], some (IDENT ++ BOT_ERROR_COLOR ++ str "Enter user name." ++ STYLE_RESET ++
        (str "\n" ++ (dictGet COMMANDS_HELP_INFO (str "phone")).getD []))⟩) ∧
    (dictGet store (pyCapitalize name) = none →
      (validate_phone phone = .ok () →
        update_contact store [name, phone] =
          ⟨store, [], some (IDENT ++ BOT_ERROR_COLOR ++ notFoundMsg (pyCapitalize name) ++
            STYLE_RESET)⟩) ∧
      get_users_phone store [name] =
        ⟨store, [], some (IDENT ++ BOT_ERROR_COLOR ++ notFoundMsg (pyCapitalize name) ++
          STYLE_RESET)⟩) ∧
    (∀ existing, dictGet store (pyCapitalize name) = some existing →
      validate_phone phone = .ok () →
      (add_contact store [name, phone]).returned = none ∧
      (add_contact store [name, phone]).printed =
        [print_error_line (alreadyExistsMsg (pyCapitalize name) existing)]) := by
  refine ⟨fun hlen => ⟨?_, ?_⟩, ?_, fun habs => ⟨fun hph => ?_, ?_⟩,
    fun existing hex hph => ?_⟩
  · rw [add_contact, add_contact_raw_arity _ _ hlen,
      input_error_arity _ (str "add") _ _ (by decide)]
  · rw [update_contact, update_contact_raw_arity _ _ hlen,
      input_error_arity _ (str "change") _ _ (by decide)]
  · rw [get_users_phone,
      show get_users_phone_raw store [] =
        ⟨store, [], .error (.indexError (str "Enter user name."))⟩ from rfl,
      input_error_indexError _ (str "phone") _ _ _ (by decide)]
  · have h1 : update_contact_raw store [name, phone] =
        ⟨store, [], .error (.keyError (notFoundMsg (pyCapitalize name)))⟩ := by
      simp [update_contact_raw, hph, habs]
    rw [update_contact, h1,
      input_error_keyError _ _ _ _ (notFoundMsg_ne (pyCapitalize name))]
  · have h1 : get_users_phone_raw store [name] =
        ⟨store, [], .error (.keyError (notFoundMsg (pyCapitalize name)))⟩ := by
      simp [get_users_phone_raw, habs]
    rw [get_users_phone, h1,
      input_error_keyError _ _ _ _ (notFoundMsg_ne (pyCapitalize name))]
  · constructor <;> simp [add_contact, add_contact_raw, input_error, hph, hex]

/-- C5 witness: one usage failure with its hint, and one not-found
failure without it. -/
theorem c5_error_wrapping_witness :
    add_contact [] [str "x"] =
      ⟨[], [], some (IDENT ++ BOT_ERROR_COLOR ++ ERR_NAME_AND_PHONE ++ STYLE_RESET ++
        (str "\n" ++ (dictGet COMMANDS_HELP_INFO (str "add")).getD []))⟩ ∧
    get_users_phone [] [] =
      ⟨[], [], some (IDENT ++ BOT_ERROR_COLOR ++ str "Enter user name." ++ STYLE_RESET ++
        (str "\n" ++ (dictGet COMMANDS_HELP_INFO (str "phone")).getD []))⟩ ∧
    get_users_phone [] [str "bob"] =
      ⟨[], [], some (IDENT ++ BOT_ERROR_COLOR ++ notFoundMsg (pyCapitalize (str "bob")) ++
        STYLE_RESET)⟩ :=
  ⟨((c5_error_wrapping [] [str "x"] (str "bob") (str "1234567890")).1 (by decide)).1,
    (c5_error_wrapping [] [str "x"] (str "bob") (str "1234567890")).2.1,
    ((c5_error_wrapping [] [str "x"] (str "bob") (str "1234567890")).2.2.1 (by decide)).2⟩

/-! Claim C6. -/

/-- C6: username normalization by `capitalize` is idempotent, and add
and lookup both apply it, so after adding "bob" (with any valid phone,
to any store) the lookups of "BOB" and of "Bob" are one and the same
lookup of the single entry "Bob", which is present. -/
theorem c6_normalization (phone : Str) :
    (∀ s : Str, pyCapitalize (pyCapitalize s) = pyCapitalize s) ∧
    (∀ store : Store, validate_phone phone = .ok () →
      get_users_phone (add_contact store [str "bob", phone]).store [str "BOB"] =
        get_users_phone (add_contact store [str "bob", phone]).store [str "Bob"] ∧
      dictGet (add_contact store [str "bob", phone]).store (str "Bob") ≠ none) := by
  constructor
  · intro s
    cases s with
    | nil => rfl
    | cons c rest =>
      simp [pyCapitalize, char_toUpper_idem, List.map_map, Function.comp,
        char_toLower_idem]
  · intro store hph
    have hcapB : pyCapitalize (str "BOB") = str "Bob" := by decide
    have hcapb : pyCapitalize (str "Bob") = str "Bob" := by decide
    have hbob : pyCapitalize (str "bob") = str "Bob" := by decide
    constructor
    · simp [get_users_phone, get_users_phone_raw, hcapB, hcapb]
    · cases hex : dictGet store (str "Bob") with
      | some p =>
        have hst : (add_contact store [str "bob", phone]).store = store := by
          simp [add_contact, add_contact_raw, input_error, hph, hbob, hex]
        rw [hst, hex]
        simp
      | none =>
        have hst : (add_contact store [str "bob", phone]).store =
            dictSet store (str "Bob") phone := by
          simp [add_contact, add_contact_raw, input_error, hph, hbob, hex]
        rw [hst, dictGet_dictSet, if_pos rfl]
        simp

/-- C6 witness: with the store empty and phone "1234567890". -/
theorem c6_normalization_witness :
    get_users_phone (add_contact [] [str "bob", str "1234567890"]).store [str "BOB"] =
      get_users_phone (add_contact [] [str "bob", str "1234567890"]).store [str "Bob"] ∧
    dictGet (add_contact [] [str "bob", str "1234567890"]).store (str "Bob") ≠ none :=
  (c6_normalization (str "1234567890")).2 [] (by decide)

/-! Claim C7. -/

/-- C7: the parser splits the raw line on whitespace; with no tokens it
returns the empty command and no arguments, otherwise the first token,
trimmed and lowercased, is the command and the remaining tokens, in
order, are the arguments. -/
theorem c7_parse (line : Str) :
    (pySplit line = [] → parse_input line = ([], [])) ∧
    ∀ cmd args, pySplit line = cmd :: args →
      parse_input line = (pyLower (pyStrip cmd), args) := by
  constructor
  · intro h
    simp [parse_input, h]
  · intro cmd args h
    simp [parse_input, h]

/-- C7 witness: the line " Add  Bob 123" parses to command "add" with
arguments ["Bob", "123"]. -/
theorem c7_parse_witness :
    parse_input (str " Add  Bob 123") = (pyLower (pyStrip (str "Add")), [str "Bob", str "123"]) ∧
    pyLower (pyStrip (str "Add")) = str "add" :=
  ⟨(c7_parse (str " Add  Bob 123")).2 _ _ (by decide), by decide⟩

/-! Claim C8. -/

/-- C8: no command ever deletes an entry: whatever command the loop
dispatches (add, change, phone, all, hello, help, an unknown command or
an empty line) on whatever store and arguments, every username present
before the call is still present after it. -/
theorem c8_no_deletion (command : Str) (store : Store) (args : List Str) (k v : Str)
    (h : dictGet store k = some v) :
    ∃ v2, dictGet (run_command command store args).store k = some v2 := by
  rcases run_command_store_cases command store args with hc | hc | hc
  · rw [hc]
    rcases add_contact_store_cases store args with ha | ⟨name, phone, _, _, _, ha⟩
    · exact ⟨v, by rw [ha]; exact h⟩
    · rw [ha, dictGet_dictSet]
      by_cases hk : pyCapitalize name = k
      · exact ⟨phone, if_pos hk⟩
      · exact ⟨v, (if_neg hk).trans h⟩
  · rw [hc]
    rcases update_contact_store_cases store args with ha | ⟨name, phone, _, _, ha⟩
    · exact ⟨v, by rw [ha]; exact h⟩
    · rw [ha, dictGet_dictSet]
      by_cases hk : pyCapitalize name = k
      · exact ⟨phone, if_pos hk⟩
      · exact ⟨v, (if_neg hk).trans h⟩
  · exact ⟨v, by rw [hc]; exact h⟩

/-- C8 witness: the entry "Bob" survives a `change` call that overwrites
it. -/
theorem c8_no_deletion_witness :
    ∃ v2,
      dictGet (run_command (str "change") [(str "Bob", str "0123456789")]
        [str "bob", str "1234567890"]).store (str "Bob") = some v2 :=
  c8_no_deletion (str "change") [(str "Bob", str "0123456789")]
    [str "bob", str "1234567890"] (str "Bob") (str "0123456789") (by decide)

/-! Claim C9. -/

theorem store_valid_step (store : Store) (line : Str) (h : StoreValid store) :
    StoreValid (loop_step store line).store := by
  rcases loop_step_store_cases store line with hc | ⟨name, phone, hv, hc⟩
  · rw [hc]
    exact h
  · rw [hc]
    intro k p hk
    rw [dictGet_dictSet] at hk
    by_cases hkk : pyCapitalize name = k
    · rw [if_pos hkk] at hk
      cases hk
      exact hv
    · rw [if_neg hkk] at hk
      exact h k p hk

/-- C9: in every store state reachable from process start, every stored
phone passes `validate_phone` (both add and change validate the phone
before writing it, and nothing else ever writes the store). -/
theorem c9_reachable_stores_valid (s : Store) (h : Reachable s) : StoreValid s := by
  induction h with
  | init =>
    intro k p hk
    simp [dictGet] at hk
  | step line hprev ih => exact store_valid_step _ line ih

/-- C9 witness: the store reached by the single line
"add bob 1234567890" is valid. -/
theorem c9_reachable_stores_valid_witness : StoreValid [(str "Bob", str "1234567890")] := by
  have h0 : (loop_step [] (str "add bob 1234567890")).store =
      [(str "Bob", str "1234567890")] := by decide
  exact c9_reachable_stores_valid _
    (h0 ▸ Reachable.step (str "add bob 1234567890") Reachable.init)

/-! Claim C10. -/

/-- C10: a phone-format validation failure in add or in change yields
the plainly styled error message with no usage hint appended, because
the wrapper treats a failure as a usage error only when it is an
`IndexError` or its message is exactly `ERR_NAME_AND_PHONE`, and the
validation message (which starts with "Phone") never is. -/
theorem c10_validation_no_hint (store : Store) (name phone : Str) (e : HandlerError)
    (h : validate_phone phone = .error e) :
    add_contact store [name, phone] =
      ⟨store, [], some (IDENT ++ BOT_ERROR_COLOR ++ phoneErrorMsg phone ++ STYLE_RESET)⟩ ∧
    update_contact store [name, phone] =
      ⟨store, [], some (IDENT ++ BOT_ERROR_COLOR ++ phoneErrorMsg phone ++ STYLE_RESET)⟩ ∧
    phoneErrorMsg phone ≠ ERR_NAME_AND_PHONE := by
  have he : validate_phone phone = .error (.valueError (phoneErrorMsg phone)) := by
    rw [h, validate_phone_error_eq h]
  refine ⟨?_, ?_, phoneErrorMsg_ne phone⟩
  · have h1 : add_contact_raw store [name, phone] =
        ⟨store, [], .error (.valueError (phoneErrorMsg phone))⟩ := by
      simp [add_contact_raw, he]
    rw [add_contact, h1, input_error_valueError _ _ _ _ (phoneErrorMsg_ne phone)]
  · have h1 : update_contact_raw store [name, phone] =
        ⟨store, [], .error (.valueError (phoneErrorMsg phone))⟩ := by
      simp [update_contact_raw, he]
    rw [update_contact, h1, input_error_valueError _ _ _ _ (phoneErrorMsg_ne phone)]

/-- C10 witness: the spec's scenario `add Alice 123`. -/
theorem c10_validation_no_hint_witness :
    add_contact [] [str "Alice", str "123"] =
      ⟨[], [], some (IDENT ++ BOT_ERROR_COLOR ++ phoneErrorMsg (str "123") ++ STYLE_RESET)⟩ ∧
    update_contact [] [str "Alice", str "123"] =
      ⟨[], [], some (IDENT ++ BOT_ERROR_COLOR ++ phoneErrorMsg (str "123") ++ STYLE_RESET)⟩ ∧
    phoneErrorMsg (str "123") ≠ ERR_NAME_AND_PHONE :=
  c10_validation_no_hint [] (str "Alice") (str "123")
    (.valueError (phoneErrorMsg (str "123"))) (by decide)

end ContactBot






